import Mathlib

/-!
Shallow embedding of the AnADAMA runner layer (`anadama2/runners.py`) and the
doit-command wrapper (`anadama/commands.py`), together with theorems settling
the specification's claims about them.

Conventions of the embedding:
* Python `None` becomes `Option.none`; a raised exception becomes the `error`
  side of an `Except`.
* Sets of task numbers (`failed_tasks`, `completed_tasks`, the set of
  predecessors) are lists of `Nat` with membership; Python's arbitrary choice
  of an element out of a set (`next(iter(s))`, `s.pop()`) is modelled as the
  head of the corresponding list.
* External calls into the coordinator (`RunContext._handle_task_result`,
  `_handle_task_started`), whose implementation lives outside
  `runners.py`, are modelled as recorded events: a delivered result is
  appended to a `handled` trace and a started task to a `started` trace.
-/

namespace Anadama2

instance {ε α : Type} [DecidableEq ε] [DecidableEq α] : DecidableEq (Except ε α) := fun a b =>
  match a, b with
  | .ok x, .ok y =>
    if h : x = y then .isTrue (by rw [h])
    else .isFalse (by intro hc; cases hc; exact h rfl)
  | .error x, .error y =>
    if h : x = y then .isTrue (by rw [h])
    else .isFalse (by intro hc; cases hc; exact h rfl)
  | .ok _, .error _ => .isFalse (by intro hc; cases hc)
  | .error _, .ok _ => .isFalse (by intro hc; cases hc)

/-- `TaskResult` namedtuple (runners.py:22): the outcome record of one task.
`task_no` is `none` for results synthesized from exceptions carrying no task
number. -/
structure TaskResult where
  task_no : Option Nat
  error : Option String
  dep_keys : Option (List String)
  dep_compares : Option (List (List String))
deriving DecidableEq, Repr

/-- Exceptions that reach `exception_result` (runners.py:538): a `TaskFailed`
(runners.py:53) carries a message and a task number; any other exception
carries only its string rendering. -/
inductive Exc where
  | taskFailed (msg : String) (task_no : Nat)
  | other (msg : String)
deriving DecidableEq, Repr

/-- `getattr(exc, "task_no", None)` on an exception value. -/
def Exc.task_no : Exc → Option Nat
  | .taskFailed _ n => some n
  | .other _ => none

/-- `str(exc)`: an `Exception`'s string rendering is its message argument. -/
def Exc.str : Exc → String
  | .taskFailed m _ => m
  | .other m => m

/-- `exception_result` (runners.py:538-539). -/
def exception_result (exc : Exc) : TaskResult :=
  ⟨exc.task_no, some exc.str, none, none⟩

/-- `parent_failed_result` (runners.py:542-545). -/
def parent_failed_result (idx parent_idx : Nat) : TaskResult :=
  ⟨some idx,
   some ("Task failed because parent task `" ++ toString parent_idx ++ "' failed"),
   none, none⟩

/-! ## The pre-dispatch gate of each runner variant -/

/-- What a runner decides to do with an index popped from the ready deque,
before (possibly) dispatching the task. -/
inductive GateDecision where
  | deliverParentFailed (r : TaskResult)
  | pushFront
  | dispatch
deriving DecidableEq, Repr

/-- The check `SerialLocalRunner.run_tasks` performs on a popped index before
executing the task (runners.py:112-117): only the failed-parents intersection
is examined; there is no completed-parents check and no push-front. -/
def SerialLocalRunner.gate (preds failed : List Nat) (idx : Nat) : GateDecision :=
  match preds.filter (fun p => decide (p ∈ failed)) with
  | p :: _ => .deliverParentFailed (parent_failed_result idx p)
  | [] => .dispatch

/-- The check `ParallelLocalRunner._fill_work_q` performs on a popped index
(runners.py:278-288): failed parents synthesize a parent-failed result;
parents not yet completed push the index back on the front of the deque
(`appendleft`); otherwise the task is dispatched. -/
def ParallelLocalRunner.gate (preds failed completed : List Nat) (idx : Nat) :
    GateDecision :=
  match preds.filter (fun p => decide (p ∈ failed)) with
  | p :: _ => .deliverParentFailed (parent_failed_result idx p)
  | [] =>
    if preds.any (fun p => decide (p ∉ completed)) then .pushFront
    else .dispatch

/-- The check `GridRunner._get_next_task` performs on a popped index
(runners.py:466-482), identical in structure to the parallel-local one. -/
def GridRunner.gate (preds failed completed : List Nat) (idx : Nat) :
    GateDecision :=
  match preds.filter (fun p => decide (p ∈ failed)) with
  | p :: _ => .deliverParentFailed (parent_failed_result idx p)
  | [] =>
    if preds.any (fun p => decide (p ∉ completed)) then .pushFront
    else .dispatch

/-- The full pre-dispatch gate exactly as the specification states it for
every variant (spec section 4.2, steps 1-4): spec-side definition, to be
compared with the per-variant gates taken from the source. -/
def specFullGate (preds failed completed : List Nat) (idx : Nat) : GateDecision :=
  match preds.filter (fun p => decide (p ∈ failed)) with
  | p :: _ => .deliverParentFailed (parent_failed_result idx p)
  | [] =>
    if preds.all (fun p => decide (p ∈ completed)) then .dispatch
    else .pushFront

/-! ## Action executor -/

/-- One target of a task: an object with a `.name` attribute and a
`compare()` method; `compare` either yields a finite sequence of strings or
raises (`Except.error` holds the traceback text). `repr` is the object's
display string used in error messages. -/
structure Target where
  name : String
  compare : Except String (List String)
  repr : String
deriving DecidableEq, Repr

/-- One action of a task, after the distinction drawn by
`helpers.apply_sh`. Modelled from the spec: `apply_sh` (imported at
runners.py:17; its source is outside `src/`) converts a shell-command string
into a callable that runs the command and raises on a non-zero exit status,
and passes plain callables through (spec section 4.6). A `func` action
carries `some tb` when invoking it raises with traceback `tb`; a `cmd`
action carries the command's exit code and the traceback its wrapper would
raise with. -/
inductive Action where
  | func (raises : Option String)
  | cmd (exit_code : Nat) (tb : String)
deriving DecidableEq, Repr

/-- Outcome of invoking the callable `apply_sh` produced for an action:
`none` on success, `some tb` when it raises. A shell command raises exactly
when its exit code is non-zero. -/
def Action.outcome : Action → Option String
  | .func r => r
  | .cmd ec tb => if ec = 0 then none else some tb

/-- A task as the action executor sees it (runners.py:170-199). -/
structure Task where
  task_no : Nat
  name : String
  actions : List Action
  targets : List Target
deriving DecidableEq, Repr

/-- The message formatted at runners.py:177-178. -/
def actionFailMsg (i : Nat) (tb : String) : String :=
  "Error executing action " ++ toString i ++ ". Original Exception: \n" ++ tb

/-- The message formatted at runners.py:193. -/
def targetFailMsg (targetRepr tb : String) : String :=
  "Failed to produce target `" ++ targetRepr ++ "'. Original exception: " ++ tb

/-- Loop body of `_get_task_result` (runners.py:186-199): walk the targets,
accumulating names and materialized `compare()` sequences; the first
`compare()` that raises turns the whole call into an exception result. -/
def _get_task_result.go (task_no : Nat) :
    List Target → List String → List (List String) → TaskResult
  | [], keys, comps => ⟨some task_no, none, some keys, some comps⟩
  | t :: rest, keys, comps =>
    match t.compare with
    | .ok xs => _get_task_result.go task_no rest (keys ++ [t.name]) (comps ++ [xs])
    | .error tb =>
      exception_result (.taskFailed (targetFailMsg t.repr tb) task_no)

/-- `_get_task_result` (runners.py:186-199). -/
def _get_task_result (task : Task) : TaskResult :=
  _get_task_result.go task.task_no task.targets [] []

/-- Loop of `_run_task_locally` (runners.py:170-184) over the enumerated
actions, starting at index `i`. Besides the `TaskResult` the embedding also
returns the trace of action indices that were invoked, so that "later
actions are not run" is visible in the model. -/
def _run_task_locally.go (task : Task) : Nat → List Action → TaskResult × List Nat
  | _, [] => (_get_task_result task, [])
  | i, a :: rest =>
    match a.outcome with
    | some tb =>
      (exception_result (.taskFailed (actionFailMsg i tb) task.task_no), [i])
    | none =>
      let r := _run_task_locally.go task (i + 1) rest
      (r.1, i :: r.2)

/-- `_run_task_locally` (runners.py:170-184); the `extra` parameter of the
source is unused there and omitted. Returns the task's result together with
the indices of the actions that were actually invoked. -/
def _run_task_locally (task : Task) : TaskResult × List Nat :=
  _run_task_locally.go task 0 task.actions

/-! ## Worker loop -/

/-- A payload placed on a work channel, as `worker_run_loop` classifies it
(runners.py:144-154): either a plain dict (the only dict the coordinator
sends is the stop sentinel, but a dict with `stop` falsy is representable)
or a serialized-task blob; `blob none` is a blob on which `pickle.loads`
raises (the `Option.none` stands for the failed deserialization) and
`blob (some t)` deserializes to the task `t`. -/
inductive Pkl where
  | dict (stop : Bool)
  | blob (t : Option Task)
deriving DecidableEq, Repr

/-- The test at runners.py:144: `type(pkl) is dict and pkl.get("stop", False)`. -/
def Pkl.isStopDict : Pkl → Bool
  | .dict b => b
  | .blob _ => false

/-- `pickle.loads(pkl)` (runners.py:149): a dict is not a pickle byte string
and raises; a bad blob raises; a good blob yields its task. The error text
stands for the exception raised. -/
def pickle_loads : Pkl → Except String Task
  | .dict _ => .error "pickle.loads: payload is not a pickle byte string"
  | .blob none => .error "pickle.loads: could not deserialize task"
  | .blob (some t) => .ok t

/-- What the worker receives from `work_q.get()` on one iteration
(runners.py:133-143): a payload pair, or a raised `IOError`/`EOFError`. -/
inductive WorkItem where
  | payload (pkl : Pkl) (extra : Option String)
  | ioError (msg : String)
  | eofError
deriving DecidableEq, Repr

/-- `worker_run_loop` (runners.py:130-167), run over a finite trace of
receptions; `run_task` abstracts the `run_task` parameter. The value
returned is the pair (results put on `result_q` in order, payloads on which
`pickle.loads` was attempted in order); the loop body breaks on transport
errors and on the stop sentinel, and otherwise appends one result per
payload. -/
def worker_run_loop (run_task : Task → Option String → TaskResult) :
    List WorkItem → List TaskResult × List Pkl
  | [] => ([], [])
  | .ioError _ :: _ => ([], [])
  | .eofError :: _ => ([], [])
  | .payload pkl extra :: rest =>
    if pkl.isStopDict then ([], [])
    else
      match pickle_loads pkl with
      | .error e =>
        let r := worker_run_loop run_task rest
        (exception_result (.other e) :: r.1, pkl :: r.2)
      | .ok task =>
        let r := worker_run_loop run_task rest
        (run_task task extra :: r.1, pkl :: r.2)

/-! ## ParallelLocalRunner state machine -/

/-- A task as the parallel-local dispatch path sees it: its display string
(used in the serialization error message) and the outcome of
`cloudpickle.dumps` on it — `Except.ok blob` for a successful pickling,
`Except.error e` when pickling raises with message `e` (cloudpickle is an
external library; its outcome on a given task is a fixed datum of the
model). -/
structure PTask where
  repr : String
  pkl : Except String String
deriving DecidableEq, Repr

/-- The state a `ParallelLocalRunner` and its context hold while
`run_tasks` executes. `work_q` entries are instrumented with the index of
the task a payload was serialized from (first component); `started` and
`handled` record the calls into `RunContext._handle_task_started` and
`_handle_task_result` (coordinator code outside `runners.py`);
`terminated` and `cleaned` record whether `terminate()` respectively
`cleanup()` ran. -/
structure PLState where
  tasks : List PTask
  dag : List (Nat × List Nat)
  failed_tasks : List Nat
  completed_tasks : List Nat
  task_idx_deque : List Nat
  work_q : List (Nat × String × Option String)
  started : List Nat
  handled : List TaskResult
  n_to_do : Int
  workers_started : Bool
  terminated : Bool
  cleaned : Bool
deriving DecidableEq, Repr

/-- `self.ctx.dag.predecessors(idx)` for a list-encoded dag. -/
def PLState.predecessors (st : PLState) (idx : Nat) : List Nat :=
  (st.dag.lookup idx).getD []

/-- The `ValueError` message formatted at runners.py:292-294. -/
def serializeMsg (taskRepr err : String) : String :=
  "Unable to serialize task `" ++ taskRepr ++ "'. Original error was `" ++ err ++ "'."

/-- The body of the `for` loop of `ParallelLocalRunner._fill_work_q`
(runners.py:277-298) applied to the popped index `idx` (the pop itself is
done by the caller): apply the pre-dispatch gate, then serialize and
enqueue; a serialization failure raises `ValueError` (modelled as the error
side, carrying the message and the state at the moment of the raise). -/
def fillStep (st : PLState) (idx : Nat) : Except (String × PLState) PLState :=
  match ParallelLocalRunner.gate (st.predecessors idx)
      st.failed_tasks st.completed_tasks idx with
  | .deliverParentFailed r =>
    .ok { st with handled := st.handled ++ [r], n_to_do := st.n_to_do - 1 }
  | .pushFront =>
    .ok { st with task_idx_deque := idx :: st.task_idx_deque }
  | .dispatch =>
    match st.tasks.get? idx with
    | none => .ok st
    | some t =>
      match t.pkl with
      | .error e =>
        .error (serializeMsg t.repr e, st)
      | .ok blob =>
        .ok { st with started := st.started ++ [idx],
                      work_q := st.work_q ++ [(idx, blob, none)] }

/-- The `for _ in range(len(self.task_idx_deque))` loop of `_fill_work_q`
(runners.py:276-298): `n` iterations, each popping from the back of the
deque and running `fillStep`. -/
def fillLoop : Nat → PLState → Except (String × PLState) PLState
  | 0, st => .ok st
  | n + 1, st =>
    match st.task_idx_deque.getLast? with
    | none => .ok st
    | some idx =>
      match fillStep { st with task_idx_deque := st.task_idx_deque.dropLast } idx with
      | .error e => .error e
      | .ok st' => fillLoop n st'

/-- `ParallelLocalRunner._fill_work_q` (runners.py:274-303): the loop, then
worker startup (runners.py:299-303, modelled as setting the flag). -/
def _fill_work_q (st : PLState) : Except (String × PLState) PLState :=
  match fillLoop st.task_idx_deque.length st with
  | .error e => .error e
  | .ok st' => .ok { st' with workers_started := true }

/-- `ParallelLocalRunner.terminate` (runners.py:306-325): drain the work
channel of undelivered payloads, terminate and join the workers. -/
def ParallelLocalRunner.terminate (st : PLState) : PLState :=
  { st with work_q := [], terminated := true }

/-- `ParallelLocalRunner.cleanup` (runners.py:328-336): stop sentinels to
every worker, then join them. -/
def ParallelLocalRunner.cleanup (st : PLState) : PLState :=
  { st with cleaned := true }

/-- The `while True` loop of `ParallelLocalRunner.run_tasks`
(runners.py:244-271): fill the work queue (a raise there propagates, past
the `try` that guards only `result_q.get()`), stop when nothing is left to
do, otherwise consume one result from the incoming trace and hand it to the
coordinator; honor `quit_early`. An empty incoming trace stands for a
`result_q.get()` that never returns. -/
def runTasksLoop (quit_early : Bool) :
    Nat → PLState → List TaskResult → Except (String × PLState) PLState
  | 0, st, _ => .ok st
  | fuel + 1, st, incoming =>
    match _fill_work_q st with
    | .error e => .error e
    | .ok st1 =>
      if st1.n_to_do ≤ 0 then .ok (ParallelLocalRunner.cleanup st1)
      else
        match incoming with
        | [] => .ok st1
        | r :: rest =>
          let st2 := { st1 with n_to_do := st1.n_to_do - 1,
                                handled := st1.handled ++ [r] }
          if quit_early ∧ r.error.isSome then
            .ok (ParallelLocalRunner.cleanup (ParallelLocalRunner.terminate st2))
          else
            runTasksLoop quit_early fuel st2 rest

/-- `ParallelLocalRunner.run_tasks` (runners.py:238-271): set `n_to_do` to
the deque's length, then drive the loop. -/
def ParallelLocalRunner.run_tasks (quit_early : Bool) (fuel : Nat) (st : PLState)
    (incoming : List TaskResult) : Except (String × PLState) PLState :=
  runTasksLoop quit_early fuel
    { st with n_to_do := (st.task_idx_deque.length : Int) } incoming

/-! ## GridRunner -/

/-- The routing-relevant fields a `GridRunner` holds (runners.py:341-348):
`routes` is the dict task_no -> (worker name, extra args), encoded as an
association list; `default_worker` is the name of the default pool, if one
was registered. `ctx` is an opaque identifier of the workflow the runner
was constructed from. -/
structure GridRunnerObj where
  ctx : Nat
  routes : List (Nat × String × Option String)
  default_worker : Option String
  started : Bool
deriving DecidableEq, Repr

/-- `GridRunner.__init__(workflow)` (runners.py:341-348). -/
def GridRunner.init (workflow : Nat) : GridRunnerObj :=
  { ctx := workflow, routes := [], default_worker := none, started := false }

/-- `GridRunner.route` (runners.py:414-422): explicit route, else default
pool, else raise `ValueError` (the spec's `NoRouteError`) with the message
of runners.py:420-421. -/
def GridRunner.route (g : GridRunnerObj) (task_no : Nat) :
    Except String (String × Option String) :=
  match g.routes.lookup task_no with
  | some r => .ok r
  | none =>
    match g.default_worker with
    | some d => .ok (d, none)
    | none =>
      .error ("GridRunner tried to run task " ++ toString task_no
              ++ " but has no runner to run it and no default runner is defined")

/-- A grid worker configuration: `_worker_config` in insertion order, one
`(name, rate)` pair per registered pool (`add_worker`, runners.py:351-355);
the worker class itself does not matter to the claims settled here. -/
abbrev GridConfig : Type := List (String × Nat)

/-- `len(self.workers)` after `_init_workers` (runners.py:450-461): each
pool contributes `rate` workers. -/
def numWorkersOf (cfg : GridConfig) : Nat :=
  (cfg.map (fun nc => nc.2)).sum

/-- The number of result channels `_qcycle` cycles over (runners.py:462-463):
one per pool. -/
def numChannelsOf (cfg : GridConfig) : Nat :=
  cfg.length

/-- `time.sleep(0.05)` at runners.py:493, in milliseconds. -/
def gridSleepMs : Nat := 50

/-- The inner `for _ in range(len(self.workers))` loop of
`GridRunner._get_result` (runners.py:487-492): make up to `n` non-blocking
polls, each `next(self._qcycle).get(False)` advancing the round-robin
cursor over the `channels` by one; return the trace of channel indices
polled, the first available result, if any, paired with the index of the
channel it came from, and the cursor after the loop. -/
def pollRound (channels : List (List TaskResult)) (cursor : Nat) :
    Nat → List Nat × Option (TaskResult × Nat) × Nat
  | 0 => ([], none, cursor)
  | n + 1 =>
    let i := cursor % channels.length
    match (channels.get? i).getD [] with
    | r :: _ => ([i], some (r, i), cursor + 1)
    | [] =>
      let rec_result := pollRound channels (cursor + 1) n
      (i :: rec_result.1, rec_result.2.1, rec_result.2.2)

/-- `GridRunner._get_result` (runners.py:485-493), run with `fuel` attempts:
each attempt is one `pollRound` over `numWorkers` polls; an attempt that
finds nothing sleeps `gridSleepMs` and retries. Returns the full poll
trace, the number of sleeps performed, the result found, if any, and the
final cursor. -/
def GridRunner.get_result (channels : List (List TaskResult)) (numWorkers : Nat) :
    Nat → Nat → List Nat × Nat × Option TaskResult × Nat
  | 0, cursor => ([], 0, none, cursor)
  | fuel + 1, cursor =>
    match pollRound channels cursor numWorkers with
    | (polls, some ri, c) => (polls, 0, some ri.1, c)
    | (polls, none, c) =>
      let rest := GridRunner.get_result channels numWorkers fuel c
      (polls ++ rest.1, rest.2.1 + 1, rest.2.2)

/-! ## The process-wide grid-runner singleton -/

/-- `current_grid_runner` (runners.py:530-535), with the module-level
variable `_current_grid_runner` passed and returned explicitly: given the
variable's current value (initially `none`, runners.py:530), return the
runner handed to the caller and the variable's new value. -/
def current_grid_runner (context : Nat) (cur : Option GridRunnerObj) :
    GridRunnerObj × Option GridRunnerObj :=
  match cur with
  | none =>
    let g := GridRunner.init context
    (g, some g)
  | some g => (g, some g)

/-! ## anadama/commands.py: Run._execute argument list -/

/-- One element of the `run_args` list built at commands.py:111-114. The
six normal arguments are abstract markers; `selfList` marks the element
appended by `run_args.append(run_args)`, which in Python is a reference to
the `run_args` list itself. -/
inductive RunArg where
  | depClass
  | depFile
  | reporterObj
  | continueFlag
  | alwaysFlag
  | verbosityArg
  | selfList
deriving DecidableEq, Repr

/-- The normal argument list `[self.dep_class, self.dep_file, reporter_obj,
continue_, always, verbosity]` (commands.py:111-112). -/
def normal_run_args : List RunArg :=
  [.depClass, .depFile, .reporterObj, .continueFlag, .alwaysFlag, .verbosityArg]

/-- The `run_args` list as `Run._execute` leaves it before constructing the
runner (commands.py:111-114): when `num_process > 0` the list has itself
appended as a seventh element (`run_args.append(run_args)`). -/
def Run.execute_run_args (num_process : Nat) : List RunArg :=
  let run_args := normal_run_args
  if num_process > 0 then run_args ++ [RunArg.selfList] else run_args

/-! ## Concrete inputs used by witnesses and counterexamples -/

/-- A grid runner with one explicit route and a default pool. -/
def exRunnerBoth : GridRunnerObj :=
  { ctx := 0, routes := [(3, ("slow", none))], default_worker := some "fast",
    started := false }

/-- A grid runner with a default pool and no explicit routes. -/
def exRunnerDefault : GridRunnerObj :=
  { ctx := 0, routes := [], default_worker := some "fast", started := false }

/-- A grid runner with neither routes nor a default pool. -/
def exRunnerEmpty : GridRunnerObj :=
  { ctx := 0, routes := [], default_worker := none, started := false }

/-- A task whose single action succeeds and whose single target compares
successfully. -/
def exOkTask : Task :=
  { task_no := 7, name := "ok-task",
    actions := [.func none, .cmd 0 "unused"],
    targets := [{ name := "out.txt", compare := .ok ["digest", "123"],
                  repr := "<TrackedFile out.txt>" }] }

/-- A task whose second action raises. -/
def exFailTask : Task :=
  { task_no := 9, name := "fail-task",
    actions := [.func none, .cmd 1 "CalledProcessError", .func none],
    targets := [{ name := "out.txt", compare := .ok ["digest"],
                  repr := "<TrackedFile out.txt>" }] }

/-- A run-task function for worker-loop witnesses: run the task locally and
keep only the `TaskResult`. -/
def exRunTask : Task → Option String → TaskResult :=
  fun t _ => (_run_task_locally t).1

/-- A parallel-local state holding one unserializable task, ready on the
deque. -/
def exPLState : PLState :=
  { tasks := [⟨"Task 0", .error "cannot pickle local object"⟩],
    dag := [], failed_tasks := [], completed_tasks := [],
    task_idx_deque := [0], work_q := [], started := [], handled := [],
    n_to_do := 0, workers_started := false, terminated := false,
    cleaned := false }

/-- One grid pool named "local" with two workers: one result channel,
`len(self.workers) = 2`. -/
def exGridConfig : GridConfig := [("local", 2)]

/-! ## Claims -/

/-- Claim C1 (counterexample): the claim requires every variant to push a
task whose predecessors are not all completed back onto the front of the
deque, but `SerialLocalRunner.run_tasks` has no such step: with predecessor
0 neither failed nor completed, the serial gate dispatches task 1 where the
claimed full gate defers it. -/
theorem claim_C1_counterexample :
    SerialLocalRunner.gate [0] [] 1 = GateDecision.dispatch ∧
    specFullGate [0] [] [] 1 = GateDecision.pushFront := by
  constructor <;> rfl

/-- Claim C1 (amended): `ParallelLocalRunner._fill_work_q` and
`GridRunner._get_next_task` apply the full pre-dispatch gate exactly as the
claim states it; `SerialLocalRunner.run_tasks` applies only the
failed-parent half — it coincides with the full gate only when every
predecessor is treated as completed, and never pushes an index back. -/
theorem claim_C1_amended (preds failed completed : List Nat) (idx : Nat) :
    ParallelLocalRunner.gate preds failed completed idx
      = specFullGate preds failed completed idx ∧
    GridRunner.gate preds failed completed idx
      = specFullGate preds failed completed idx ∧
    SerialLocalRunner.gate preds failed idx
      = specFullGate preds failed preds idx := by
  have bkey : ∀ (P c : List Nat),
      P.any (fun p => decide (p ∉ c)) = !P.all (fun p => decide (p ∈ c)) := by
    intro P c
    induction P with
    | nil => rfl
    | cons a t ih =>
      rw [List.any_cons, List.all_cons, ih]
      simp [decide_not, Bool.not_and]
  have hserial : preds.all (fun p => decide (p ∈ preds)) = true := by
    simp [List.all_eq_true]
  unfold ParallelLocalRunner.gate GridRunner.gate SerialLocalRunner.gate specFullGate
  refine ⟨?_, ?_, ?_⟩ <;>
    cases hf : preds.filter (fun p => decide (p ∈ failed)) <;>
      simp only [bkey, hserial] <;>
        first
          | rfl
          | cases hall : preds.all (fun p => decide (p ∈ completed)) <;> simp [hall]

/-- Claim C5: `GridRunner.route(task_no)` returns the explicitly registered
route when one exists (overriding any default pool), else
`(default_pool_name, none)` when a default pool is set, and otherwise fails
with the no-route error. -/
theorem claim_C5_route (g : GridRunnerObj) (t : Nat) :
    (∀ r, g.routes.lookup t = some r → GridRunner.route g t = .ok r) ∧
    (∀ d, g.routes.lookup t = none → g.default_worker = some d →
      GridRunner.route g t = .ok (d, none)) ∧
    (g.routes.lookup t = none → g.default_worker = none →
      GridRunner.route g t =
        .error ("GridRunner tried to run task " ++ toString t
                ++ " but has no runner to run it and no default runner is defined")) := by
  unfold GridRunner.route
  refine ⟨?_, ?_, ?_⟩
  · intro r hr
    rw [hr]
  · intro d hn hd
    rw [hn, hd]
  · intro hn hd
    rw [hn, hd]

/-- Claim C5 witness: the three branches of `route` evaluated on concrete
runners: an explicit route for task 3 wins over the default pool, task 4
falls back to the default, and a runner with neither fails. -/
theorem claim_C5_route_witness :
    GridRunner.route exRunnerBoth 3 = .ok ("slow", none) ∧
    GridRunner.route exRunnerDefault 4 = .ok ("fast", none) ∧
    GridRunner.route exRunnerEmpty 4 =
      .error ("GridRunner tried to run task " ++ toString 4
              ++ " but has no runner to run it and no default runner is defined") :=
  ⟨(claim_C5_route exRunnerBoth 3).1 ("slow", none) rfl,
   (claim_C5_route exRunnerDefault 4).2.1 "fast" rfl rfl,
   (claim_C5_route exRunnerEmpty 4).2.2 rfl rfl⟩

/-- Claim C7: a payload whose first element is a dict with a truthy `stop`
entry makes the worker exit its loop at once — before `pickle.loads` is
attempted on anything further — and nothing is put on the result channel:
both the result trace and the deserialization trace of the remaining loop
are empty, whatever follows on the work channel. -/
theorem claim_C7_stop_sentinel (run_task : Task → Option String → TaskResult)
    (pkl : Pkl) (extra : Option String) (rest : List WorkItem)
    (h : pkl.isStopDict = true) :
    worker_run_loop run_task (.payload pkl extra :: rest) = ([], []) := by
  unfold worker_run_loop
  rw [h]
  rfl

/-- Claim C7 witness: the stop sentinel followed by a further payload:
the worker stops, deserializes nothing, produces nothing. -/
theorem claim_C7_stop_sentinel_witness :
    (Pkl.dict true).isStopDict = true ∧
    worker_run_loop exRunTask
      [.payload (.dict true) none, .payload (.blob (some exOkTask)) none]
      = ([], []) :=
  ⟨rfl, claim_C7_stop_sentinel exRunTask (.dict true) none
    [.payload (.blob (some exOkTask)) none] rfl⟩

/-- Claim C8: the code contradicts the claim (and the spec's stated
intent): with `num_process = 0` the runner gets the six normal arguments,
but with `num_process = 1` the built list has itself appended as a seventh
element (`run_args.append(run_args)`, commands.py:113-114), so the argument
list passed to the runner constructor does contain itself. -/
theorem claim_C8_self_append :
    Run.execute_run_args 0 = normal_run_args ∧
    Run.execute_run_args 1 = normal_run_args ++ [RunArg.selfList] ∧
    RunArg.selfList ∈ Run.execute_run_args 1 ∧
    RunArg.selfList ∉ normal_run_args := by
  refine ⟨rfl, rfl, ?_, ?_⟩ <;> decide

/-- Claim C9: `current_grid_runner` is memoized in the module-level
variable: the first call constructs the runner from its own context, and a
second call with any other context returns the very runner stored by the
first call, leaving the stored value untouched — the second context is
never consulted. -/
theorem claim_C9_singleton (c1 c2 : Nat) :
    (current_grid_runner c1 none).1 = GridRunner.init c1 ∧
    (current_grid_runner c2 (current_grid_runner c1 none).2).1
      = (current_grid_runner c1 none).1 ∧
    (current_grid_runner c2 (current_grid_runner c1 none).2).2
      = (current_grid_runner c1 none).2 := by
  exact ⟨rfl, rfl, rfl⟩

/-- Claim C10: an `IOError` or `EOFError` raised out of `work_q.get()` makes
the worker loop break immediately: no `TaskResult` or any other value is put
on the result channel (empty result trace), and no payload is deserialized,
regardless of what else is on the work channel. -/
theorem claim_C10_transport_error (run_task : Task → Option String → TaskResult)
    (msg : String) (rest rest' : List WorkItem) :
    worker_run_loop run_task (.ioError msg :: rest) = ([], []) ∧
    worker_run_loop run_task (.eofError :: rest') = ([], []) := by
  exact ⟨rfl, rfl⟩

/-- Shifted enumeration of `n + 1` indices: the range starting at `k` is
`k` followed by the range starting at `k + 1`. -/
theorem map_add_shift (k n : Nat) :
    (List.range (n + 1)).map (fun j => k + j)
      = k :: (List.range n).map (fun j => k + 1 + j) := by
  rw [List.range_succ_eq_map, List.map_cons, List.map_map]
  refine congrArg₂ _ rfl ?_
  exact List.map_congr_left fun x _ => by simp [Function.comp]; omega

/-- When every `compare()` in the remaining targets succeeds, the
target-walking loop of `_get_task_result` appends every target's name and
materialized comparison to the accumulators. -/
theorem get_task_result_go_ok (task_no : Nat) :
    ∀ (targs : List Target) (keys : List String) (comps : List (List String)),
      (∀ tg ∈ targs, ∃ xs, tg.compare = Except.ok xs) →
      _get_task_result.go task_no targs keys comps =
        ⟨some task_no, none,
         some (keys ++ targs.map Target.name),
         some (comps ++ targs.map fun tg => tg.compare.toOption.getD [])⟩ := by
  intro targs
  induction targs with
  | nil => intro keys comps _; simp [_get_task_result.go]
  | cons t rest ih =>
    intro keys comps h
    obtain ⟨xs, hxs⟩ := h t (by simp)
    have ih' := ih (keys ++ [t.name]) (comps ++ [xs])
      (fun tg htg => h tg (by simp [htg]))
    simp only [_get_task_result.go, hxs]
    rw [ih']
    simp [hxs, Except.toOption]

/-- When every action in the remaining list succeeds, the action loop of
`_run_task_locally` falls through to `_get_task_result` and executes all
the remaining action indices. -/
theorem run_task_locally_go_all_ok (task : Task) :
    ∀ (acts : List Action) (k : Nat), (∀ a ∈ acts, a.outcome = none) →
      _run_task_locally.go task k acts =
        (_get_task_result task, (List.range acts.length).map fun j => k + j) := by
  intro acts
  induction acts with
  | nil => intro k _; simp [_run_task_locally.go]
  | cons a rest ih =>
    intro k h
    have ha : a.outcome = none := h a (by simp)
    have ih' := ih (k + 1) (fun b hb => h b (by simp [hb]))
    unfold _run_task_locally.go
    rw [ha, ih', List.length_cons, map_add_shift k rest.length]

/-- If the action at index `i` fails while all earlier ones succeed, the
action loop stops at `i` with the formatted exception result, having
executed exactly the indices up to and including `i` (shifted by the
enumeration offset `k`). -/
theorem run_task_locally_go_fail (task : Task) :
    ∀ (acts : List Action) (i k : Nat) (a : Action) (tb : String),
      acts.get? i = some a → a.outcome = some tb →
      (∀ j b, j < i → acts.get? j = some b → b.outcome = none) →
      _run_task_locally.go task k acts =
        (exception_result (.taskFailed (actionFailMsg (k + i) tb) task.task_no),
         (List.range (i + 1)).map fun j => k + j) := by
  intro acts
  induction acts with
  | nil => intro i k a tb ha; simp at ha
  | cons a0 rest ih =>
    intro i k a tb ha hfail hprev
    cases i with
    | zero =>
      rw [List.get?_cons_zero] at ha
      cases ha
      unfold _run_task_locally.go
      rw [hfail, map_add_shift k 0]
      rfl
    | succ j =>
      have h0 : a0.outcome = none :=
        hprev 0 a0 (Nat.succ_pos j) List.get?_cons_zero
      rw [List.get?_cons_succ] at ha
      have ih' := ih j (k + 1) a tb ha hfail
        (fun m b hm hb => hprev (m + 1) b (by omega) (by rwa [List.get?_cons_succ]))
      unfold _run_task_locally.go
      rw [h0, ih']
      have hmsg : k + 1 + j = k + (j + 1) := by omega
      rw [hmsg, map_add_shift k (j + 1)]

/-- Claim C2: when every action of a task succeeds and every target's
`compare()` succeeds, the action executor returns
`TaskResult(task_no, None, dep_keys, dep_compares)` where `dep_keys` is the
list of the targets' names in order and `dep_compares` the list of their
materialized `compare()` sequences; both have the length of
`task.targets`, and the i-th key is the i-th target's name. -/
theorem claim_C2_success_result (t : Task)
    (hact : ∀ a ∈ t.actions, a.outcome = none)
    (htarg : ∀ tg ∈ t.targets, ∃ xs, tg.compare = Except.ok xs) :
    (_run_task_locally t).1 =
      ⟨some t.task_no, none, some (t.targets.map Target.name),
       some (t.targets.map fun tg => tg.compare.toOption.getD [])⟩ ∧
    (t.targets.map Target.name).length = t.targets.length ∧
    (t.targets.map fun tg => tg.compare.toOption.getD []).length = t.targets.length ∧
    ∀ (i : Nat) (h : i < t.targets.length),
      (t.targets.map Target.name).get ⟨i, by simpa using h⟩
        = (t.targets.get ⟨i, h⟩).name := by
  refine ⟨?_, by simp, by simp, ?_⟩
  · rw [_run_task_locally, run_task_locally_go_all_ok t t.actions 0 hact]
    rw [_get_task_result, get_task_result_go_ok t.task_no t.targets [] [] htarg]
    simp
  · intro i h
    simp [List.get_map]

/-- Claim C2 witness: the executor evaluated on a concrete two-action,
one-target task that succeeds throughout. -/
theorem claim_C2_success_result_witness :
    (_run_task_locally exOkTask).1 =
      ⟨some 7, none, some ["out.txt"], some [["digest", "123"]]⟩ := by
  have h := claim_C2_success_result exOkTask
    (by intro a ha; fin_cases ha <;> decide)
    (by intro tg htg; fin_cases htg; exact ⟨["digest", "123"], rfl⟩)
  simpa [exOkTask] using h.1

/-- Claim C3: if the action at index `i` of a task raises (or is a shell
command exiting non-zero) while all earlier actions succeed, the executor
stops there and returns a failed `TaskResult` whose error string is the
formatted message naming action index `i` and carrying the captured
traceback, whose `dep_keys` and `dep_compares` are `None`, and the executed
action indices are exactly `0..i` — no later action runs. -/
theorem claim_C3_action_failure (t : Task) (i : Nat) (a : Action) (tb : String)
    (ha : t.actions.get? i = some a) (hfail : a.outcome = some tb)
    (hprev : ∀ j b, j < i → t.actions.get? j = some b → b.outcome = none) :
    _run_task_locally t =
      (⟨some t.task_no, some (actionFailMsg i tb), none, none⟩,
       List.range (i + 1)) := by
  have h := run_task_locally_go_fail t t.actions i 0 a tb ha hfail hprev
  rw [_run_task_locally, h]
  simp [exception_result, Exc.task_no, Exc.str]

/-- Claim C3 witness: a task whose second action is a shell command exiting
with status 1; the executor stops after actions 0 and 1, and the third
action never runs. -/
theorem claim_C3_action_failure_witness :
    _run_task_locally exFailTask =
      (⟨some 9, some (actionFailMsg 1 "CalledProcessError"), none, none⟩,
       [0, 1]) := by
  have h := claim_C3_action_failure exFailTask 1 (.cmd 1 "CalledProcessError")
    "CalledProcessError" rfl (by decide)
    (by intro j b hj hb
        interval_cases j
        simp only [exFailTask, List.get?_cons_zero, Option.some.injEq] at hb
        rw [← hb]
        rfl)
  simpa [exFailTask] using h

/-- A `fillStep` that raises leaves the state exactly as it was at the
moment of the raise, and the message is the serialization `ValueError`
message for the popped task. -/
theorem fillStep_error (st : PLState) (idx : Nat) (m : String) (st' : PLState)
    (h : fillStep st idx = .error (m, st')) :
    st' = st ∧ ∃ t e, st.tasks.get? idx = some t ∧ t.pkl = Except.error e ∧
      m = serializeMsg t.repr e := by
  unfold fillStep at h
  split at h
  · exact absurd h (by simp)
  · exact absurd h (by simp)
  · split at h
    · exact absurd h (by simp)
    · split at h
      · rename_i t ht x e hp
        have h' : serializeMsg t.repr e = m ∧ st = st' := by simpa using h
        exact ⟨h'.2.symm, t, e, ht, hp, h'.1.symm⟩
      · exact absurd h (by simp)

/-- A `fillStep` that returns keeps the task array and the termination and
cleanup flags, and only ever adds to `started` a task that serialized
successfully, and to the work channel a payload whose blob came from a
successful serialization. -/
theorem fillStep_ok (st : PLState) (idx : Nat) (st' : PLState)
    (h : fillStep st idx = .ok st') :
    st'.tasks = st.tasks ∧ st'.terminated = st.terminated ∧
    st'.cleaned = st.cleaned ∧
    (∀ j, j ∈ st'.started → j ∈ st.started ∨
      ∃ t b, st.tasks.get? j = some t ∧ t.pkl = Except.ok b) ∧
    (∀ p, p ∈ st'.work_q → p ∈ st.work_q ∨
      ∃ t, st.tasks.get? p.1 = some t ∧ t.pkl = Except.ok p.2.1) := by
  unfold fillStep at h
  split at h
  · injection h with h1
    subst h1
    exact ⟨rfl, rfl, rfl, fun j hj => Or.inl hj, fun p hp => Or.inl hp⟩
  · injection h with h1
    subst h1
    exact ⟨rfl, rfl, rfl, fun j hj => Or.inl hj, fun p hp => Or.inl hp⟩
  · split at h
    · injection h with h1
      subst h1
      exact ⟨rfl, rfl, rfl, fun j hj => Or.inl hj, fun p hp => Or.inl hp⟩
    · split at h
      · exact absurd h (by simp)
      · rename_i t ht x blob hp
        injection h with h1
        subst h1
        refine ⟨rfl, rfl, rfl, ?_, ?_⟩
        · intro j hj
          rcases List.mem_append.mp hj with hj' | hj'
          · exact Or.inl hj'
          · right
            have hji : j = idx := by simpa using hj'
            subst hji
            exact ⟨t, blob, ht, hp⟩
        · intro p hpm
          rcases List.mem_append.mp hpm with h1 | h1
          · exact Or.inl h1
          · right
            have hpe : p = (idx, blob, none) := by simpa using h1
            subst hpe
            exact ⟨t, ht, hp⟩

/-- When the fill loop of `_fill_work_q` raises, the termination and
cleanup flags are as they were on entry, every newly started task and
newly enqueued payload came from a successful serialization, and the
message raised is the serialization `ValueError` message of some task with
a failing serialization. -/
theorem fillLoop_error :
    ∀ (n : Nat) (st : PLState) (m : String) (st' : PLState),
      fillLoop n st = .error (m, st') →
      st'.terminated = st.terminated ∧ st'.cleaned = st.cleaned ∧
      (∀ j, j ∈ st'.started → j ∈ st.started ∨
        ∃ t b, st.tasks.get? j = some t ∧ t.pkl = Except.ok b) ∧
      (∀ p, p ∈ st'.work_q → p ∈ st.work_q ∨
        ∃ t, st.tasks.get? p.1 = some t ∧ t.pkl = Except.ok p.2.1) ∧
      (∃ idx t e, st.tasks.get? idx = some t ∧ t.pkl = Except.error e ∧
        m = serializeMsg t.repr e) := by
  intro n
  induction n with
  | zero => intro st m st' h; exact absurd h (by simp [fillLoop])
  | succ n ih =>
    intro st m st' h
    rw [fillLoop] at h
    split at h
    · exact absurd h (by simp)
    · rename_i idx hl
      split at h
      · rename_i e hs
        injection h with h1
        subst h1
        obtain ⟨hst, t, e', ht, hp, hm⟩ := fillStep_error _ idx m st' hs
        subst hst
        exact ⟨rfl, rfl, fun j hj => Or.inl hj, fun p hp' => Or.inl hp',
               idx, t, e', ht, hp, hm⟩
      · rename_i st1 hs
        obtain ⟨htm, hcl, hstart, hwq, hex⟩ := ih st1 m st' h
        obtain ⟨htk1, ht1, hc1, hstart1, hwq1⟩ := fillStep_ok _ idx st1 hs
        refine ⟨htm.trans ht1, hcl.trans hc1, ?_, ?_, ?_⟩
        · intro j hj
          rcases hstart j hj with h1 | h1
          · exact hstart1 j h1
          · rw [htk1] at h1
            exact Or.inr h1
        · intro p hpm
          rcases hwq p hpm with h1 | h1
          · exact hwq1 p h1
          · rw [htk1] at h1
            exact Or.inr h1
        · obtain ⟨i, t, e', hti, hpi, hmi⟩ := hex
          rw [htk1] at hti
          exact ⟨i, t, e', hti, hpi, hmi⟩

/-- `fillLoop_error` lifted through `_fill_work_q`. -/
theorem fill_work_q_error (st : PLState) (m : String) (st' : PLState)
    (h : _fill_work_q st = .error (m, st')) :
    st'.terminated = st.terminated ∧ st'.cleaned = st.cleaned ∧
    (∀ j, j ∈ st'.started → j ∈ st.started ∨
      ∃ t b, st.tasks.get? j = some t ∧ t.pkl = Except.ok b) ∧
    (∀ p, p ∈ st'.work_q → p ∈ st.work_q ∨
      ∃ t, st.tasks.get? p.1 = some t ∧ t.pkl = Except.ok p.2.1) ∧
    (∃ idx t e, st.tasks.get? idx = some t ∧ t.pkl = Except.error e ∧
      m = serializeMsg t.repr e) := by
  unfold _fill_work_q at h
  split at h
  · rename_i e hf
    injection h with h1
    subst h1
    exact fillLoop_error st.task_idx_deque.length st m st' hf
  · exact absurd h (by simp)

/-- Claim C4 (amended): when serializing a task for the worker pool fails,
`_fill_work_q` raises a `ValueError` whose message names the offending
task's display string and the original cause; at the moment of the raise
the failing task has been neither enqueued on the work channel nor marked
started (anything newly enqueued or started serialized successfully), and
the error propagates from `run_tasks` to the caller immediately — the
`try` in `run_tasks` guards only the result read, so `terminate()` and
`cleanup()` do not run and the flags are exactly as they were. -/
theorem claim_C4_serialize_failure :
    (∀ (st : PLState) (idx : Nat) (t : PTask) (e : String),
      st.tasks.get? idx = some t → t.pkl = Except.error e →
      ParallelLocalRunner.gate (st.predecessors idx) st.failed_tasks
        st.completed_tasks idx = .dispatch →
      fillStep st idx = .error (serializeMsg t.repr e, st)) ∧
    (∀ (st : PLState) (m : String) (st' : PLState),
      _fill_work_q st = .error (m, st') →
      st'.terminated = st.terminated ∧ st'.cleaned = st.cleaned ∧
      (∀ j, j ∈ st'.started → j ∈ st.started ∨
        ∃ t b, st.tasks.get? j = some t ∧ t.pkl = Except.ok b) ∧
      (∀ p, p ∈ st'.work_q → p ∈ st.work_q ∨
        ∃ t, st.tasks.get? p.1 = some t ∧ t.pkl = Except.ok p.2.1) ∧
      (∃ idx t e, st.tasks.get? idx = some t ∧ t.pkl = Except.error e ∧
        m = serializeMsg t.repr e)) ∧
    (∀ (quit_early : Bool) (fuel : Nat) (st : PLState)
        (incoming : List TaskResult) (e : String × PLState),
      _fill_work_q { st with n_to_do := (st.task_idx_deque.length : Int) }
          = .error e →
      ParallelLocalRunner.run_tasks quit_early (fuel + 1) st incoming
        = .error e) := by
  refine ⟨?_, fill_work_q_error, ?_⟩
  · intro st idx t e ht hp hg
    have ht' : st.tasks[idx]? = some t := by
      rw [← List.get?_eq_getElem?]
      exact ht
    simp [fillStep, hg, ht', hp]
  · intro qe fuel st inc e h
    unfold ParallelLocalRunner.run_tasks
    simp [runTasksLoop, h]

/-- Claim C4 (counterexample): a one-task run whose task cannot be
serialized: `run_tasks` raises the `ValueError` directly to its caller and
the state at the raise shows `terminate()` and `cleanup()` never ran —
refuting the claim that the error is raised "after termination and
cleanup". -/
theorem claim_C4_counterexample :
    ParallelLocalRunner.run_tasks true 1 exPLState [] =
      .error (serializeMsg "Task 0" "cannot pickle local object",
              { exPLState with task_idx_deque := [], n_to_do := 1 }) ∧
    ({ exPLState with task_idx_deque := [], n_to_do := 1 } : PLState).terminated
      = false ∧
    ({ exPLState with task_idx_deque := [], n_to_do := 1 } : PLState).cleaned
      = false := by
  refine ⟨?_, rfl, rfl⟩
  rfl

/-- Claim C4 witness: the amended theorem applied to the concrete one-task
state: the raise from the fill step and its propagation out of
`run_tasks`. -/
theorem claim_C4_serialize_failure_witness :
    ParallelLocalRunner.run_tasks true 1 exPLState [] =
      .error (serializeMsg "Task 0" "cannot pickle local object",
              { exPLState with task_idx_deque := [], n_to_do := 1 }) ∧
    fillStep { exPLState with task_idx_deque := [], n_to_do := 1 } 0 =
      .error (serializeMsg "Task 0" "cannot pickle local object",
              { exPLState with task_idx_deque := [], n_to_do := 1 }) :=
  ⟨claim_C4_serialize_failure.2.2 true 0 exPLState [] _ rfl,
   claim_C4_serialize_failure.1 _ 0
     ⟨"Task 0", Except.error "cannot pickle local object"⟩
     "cannot pickle local object" rfl rfl rfl⟩

/-- Splitting a contiguous block of cyclic polls at `n`. -/
theorem range_mod_append (len cursor n m : Nat) :
    (List.range n).map (fun k => (cursor + k) % len)
      ++ (List.range m).map (fun k => (cursor + n + k) % len)
      = (List.range (n + m)).map (fun k => (cursor + k) % len) := by
  rw [List.range_add, List.map_append, List.map_map]
  refine congrArg₂ _ rfl ?_
  exact List.map_congr_left fun x _ => by
    have hc : cursor + (n + x) = cursor + n + x := by omega
    simp [Function.comp, hc]

/-- Peeling the first poll off a block of cyclic polls. -/
theorem range_mod_shift (len cursor n : Nat) :
    (List.range (n + 1)).map (fun k => (cursor + k) % len)
      = cursor % len :: (List.range n).map (fun k => (cursor + 1 + k) % len) := by
  rw [List.range_succ_eq_map, List.map_cons, List.map_map]
  refine congrArg₂ _ (by rw [Nat.add_zero]) ?_
  exact List.map_congr_left fun x _ => by
    have hc : cursor + (x + 1) = cursor + 1 + x := by omega
    simp [Function.comp, Nat.succ_eq_add_one, hc]

/-- With every result channel empty, one poll round makes exactly `n`
polls — the cyclic block of channel indices starting at the cursor — finds
nothing, and leaves the cursor advanced by `n`. -/
theorem pollRound_empty (channels : List (List TaskResult))
    (hall : ∀ c ∈ channels, c = []) :
    ∀ (n cursor : Nat),
      pollRound channels cursor n =
        ((List.range n).map (fun k => (cursor + k) % channels.length), none,
         cursor + n) := by
  have hch : ∀ i, (channels.get? i).getD [] = [] := by
    intro i
    cases hc : channels.get? i with
    | none => rfl
    | some c => simpa using hall c (List.get?_mem hc)
  intro n
  induction n with
  | zero => intro cursor; simp [pollRound]
  | succ n ih =>
    intro cursor
    rw [pollRound, hch, ih (cursor + 1), range_mod_shift]
    have hc : cursor + 1 + n = cursor + (n + 1) := by omega
    rw [hc]

/-- When a poll round returns a result, that result is the head of the
channel it reports, that channel's index closes the poll trace, and every
channel polled before it was empty: the round returns the first available
result. -/
theorem pollRound_found (channels : List (List TaskResult)) :
    ∀ (n cursor : Nat) (polls : List Nat) (r : TaskResult) (i c : Nat),
      pollRound channels cursor n = (polls, some (r, i), c) →
      (∃ tl, (channels.get? i).getD [] = r :: tl) ∧
      polls.getLast? = some i ∧
      (∀ j ∈ polls.dropLast, (channels.get? j).getD [] = []) := by
  intro n
  induction n with
  | zero =>
    intro cursor polls r i c h
    exact absurd h (by simp [pollRound])
  | succ n ih =>
    intro cursor polls r i c h
    rw [pollRound] at h
    split at h
    · rename_i r0 tl hc
      simp only [Prod.mk.injEq, Option.some.injEq] at h
      obtain ⟨hpolls, ⟨hr, hi⟩, hcur⟩ := h
      subst hpolls
      subst hr
      subst hi
      refine ⟨⟨tl, hc⟩, rfl, ?_⟩
      intro j hj
      simp at hj
    · rename_i hc
      simp only [Prod.mk.injEq] at h
      obtain ⟨hpolls, hres, hcur⟩ := h
      have hre : pollRound channels (cursor + 1) n
          = ((pollRound channels (cursor + 1) n).1, some (r, i),
             (pollRound channels (cursor + 1) n).2.2) := by
        rw [← hres]
      obtain ⟨hex, hlast, hdrop⟩ :=
        ih (cursor + 1) (pollRound channels (cursor + 1) n).1 r i
          (pollRound channels (cursor + 1) n).2.2 hre
      subst hpolls
      cases hp1 : (pollRound channels (cursor + 1) n).1 with
      | nil => rw [hp1] at hlast; exact absurd hlast (by simp)
      | cons b bs =>
        rw [hp1] at hlast hdrop
        refine ⟨hex, ?_, ?_⟩
        · rw [List.getLast?_cons_cons]
          exact hlast
        · intro j hj
          rw [List.dropLast_cons₂] at hj
          rcases List.mem_cons.mp hj with hj0 | hj1
          · subst hj0
            exact hc
          · exact hdrop j hj1

/-- With every channel empty, `_get_result` performs `fuel` rounds of `n`
polls each, sleeping once per round, finding nothing, and advancing the
cursor by `n` per round. -/
theorem get_result_empty (channels : List (List TaskResult)) (n : Nat)
    (hall : ∀ c ∈ channels, c = []) :
    ∀ (fuel cursor : Nat),
      GridRunner.get_result channels n fuel cursor =
        ((List.range (fuel * n)).map (fun k => (cursor + k) % channels.length),
         fuel, none, cursor + fuel * n) := by
  intro fuel
  induction fuel with
  | zero => intro cursor; simp [GridRunner.get_result]
  | succ fuel ih =>
    intro cursor
    rw [GridRunner.get_result, pollRound_empty channels hall n cursor]
    simp only [ih (cursor + n)]
    rw [range_mod_append channels.length cursor n (fuel * n)]
    have h1 : n + fuel * n = (fuel + 1) * n := by ring
    have h2 : cursor + n + fuel * n = cursor + (fuel + 1) * n := by ring_nf
    rw [h1, h2]

/-- Claim C6 (counterexample): with one pool of rate 2 there is one result
channel but two workers, and a single acquisition attempt polls that one
channel twice — not "each pool's result channel exactly once". -/
theorem claim_C6_counterexample :
    numChannelsOf exGridConfig = 1 ∧ numWorkersOf exGridConfig = 2 ∧
    (pollRound [[]] 0 (numWorkersOf exGridConfig)).1 = [0, 0] := by
  refine ⟨rfl, rfl, rfl⟩

/-- Claim C6 (amended): on each acquisition attempt `_get_result` makes
`len(self.workers)` non-blocking polls — one per worker, not one per
channel — advancing the round-robin cursor over the result channels by one
per poll; it returns the first available result; and when every channel is
empty it sleeps (about 50 ms, `gridSleepMs`) once per attempt before
retrying. The channels are each polled exactly once per attempt only when
the worker count equals the channel count. -/
theorem claim_C6_fair_polling (channels : List (List TaskResult))
    (cursor n : Nat) :
    ((∀ c ∈ channels, c = []) →
      pollRound channels cursor n =
        ((List.range n).map (fun k => (cursor + k) % channels.length), none,
         cursor + n)) ∧
    (∀ polls r i c, pollRound channels cursor n = (polls, some (r, i), c) →
      (∃ tl, (channels.get? i).getD [] = r :: tl) ∧
      polls.getLast? = some i ∧
      (∀ j ∈ polls.dropLast, (channels.get? j).getD [] = [])) ∧
    ((∀ c ∈ channels, c = []) → ∀ fuel,
      GridRunner.get_result channels n fuel cursor =
        ((List.range (fuel * n)).map (fun k => (cursor + k) % channels.length),
         fuel, none, cursor + fuel * n)) :=
  ⟨fun hall => pollRound_empty channels hall n cursor,
   fun polls r i c h => pollRound_found channels n cursor polls r i c h,
   fun hall fuel => get_result_empty channels n hall fuel cursor⟩

/-- Claim C6 witness: the amended theorem applied to concrete channel
states: two empty channels polled in cyclic order with one sleep per
attempt, and a round that returns the first available result from the
second channel after finding the first empty. -/
theorem claim_C6_fair_polling_witness :
    pollRound ([[], []] : List (List TaskResult)) 0 2 = ([0, 1], none, 2) ∧
    GridRunner.get_result ([[], []] : List (List TaskResult)) 2 3 0 =
      ([0, 1, 0, 1, 0, 1], 3, none, 6) ∧
    (∃ tl, (([[], [⟨some 5, none, none, none⟩]] :
        List (List TaskResult)).get? 1).getD []
      = (⟨some 5, none, none, none⟩ : TaskResult) :: tl) := by
  refine ⟨?_, ?_, ?_⟩
  · have h := (claim_C6_fair_polling [[], []] 0 2).1 (by simp)
    simpa using h
  · have h := (claim_C6_fair_polling [[], []] 0 2).2.2 (by simp) 3
    simpa using h
  · have h := (claim_C6_fair_polling [[], [⟨some 5, none, none, none⟩]] 0 2).2.1
      [0, 1] ⟨some 5, none, none, none⟩ 1 2 (by rfl)
    exact h.1

end Anadama2
